import Mathlib

/-!
Verification of the MoviePilot plugin suite (jackettindexer, prowlarrindexer,
traktsync).  Python strings are modelled as lists of Unicode characters
(`PyStr`), dictionaries as structures with `Option` fields, HTTP and host
services as explicit inputs.  Every definition is a direct translation of the
corresponding Python function; deviations (ASCII-only digit classes, exact
rational arithmetic in place of IEEE doubles) are noted where they occur.
-/

/-- Python `str` modelled as a list of Unicode code points. -/
abbrev PyStr := List Char

/-- Shorthand turning a Lean string literal into the `PyStr` model. -/
def ps (s : String) : PyStr := s.toList

/-- Python `s.startswith(pat)` over the list model: `startsWith pat s` is
`true` iff `pat` is an initial segment of `s`. -/
def startsWith : PyStr → PyStr → Bool
  | [], _ => true
  | _ :: _, [] => false
  | p :: pt, c :: ct => p == c && startsWith pt ct

/-- Python `pat in s` (substring containment). -/
def containsSub : PyStr → PyStr → Bool
  | [], pat => startsWith pat []
  | s@(_ :: rest), pat => startsWith pat s || containsSub rest pat

/-- One pass of Python `str.replace(old, new)`: scan left to right, replacing
each non-overlapping occurrence of `old`.  The fuel argument (instantiated
with the string length by `pyReplace`) only makes the recursion structural;
with `old` nonempty it never runs out.  (Python's behaviour for an empty
`old` is never exercised by this code base.) -/
def replaceFuel (old new : PyStr) : Nat → PyStr → PyStr
  | _, [] => []
  | 0, s => s
  | fuel + 1, c :: rest =>
    if startsWith old (c :: rest) then
      new ++ replaceFuel old new fuel ((c :: rest).drop old.length)
    else
      c :: replaceFuel old new fuel rest

/-- Python `s.replace(old, new)`. -/
def pyReplace (s old new : PyStr) : PyStr := replaceFuel old new s.length s

/-- Python `s.rstrip("/")`: drop every trailing `'/'`. -/
def rstripSlash (s : PyStr) : PyStr := (s.reverse.dropWhile (· == '/')).reverse

/-- Python `s.split(".")[-1]`: the maximal suffix of `s` containing no `'.'`
(the whole string when there is no dot), i.e. the last field of the split. -/
def afterLastDot (s : PyStr) : PyStr := (s.reverse.takeWhile (· != '.')).reverse

/-- `JACKETT_DOMAIN` class constant of the jackettindexer plugin. -/
def JACKETT_DOMAIN : PyStr := ps "jackett_indexer.claude"

/-- Domain encoding from `_build_indexer_dict` (jackettindexer):
`self.JACKETT_DOMAIN.replace(self.plugin_author.lower(), str(indexer_id))`
with `plugin_author.lower() = "claude"`. -/
def build_indexer_domain (indexer_id : PyStr) : PyStr :=
  pyReplace JACKETT_DOMAIN (ps "claude") indexer_id

/-- Domain decoding from `search_torrents`:
`domain.replace("http://", "").replace("https://", "").rstrip("/")`
followed by `.split(".")[-1]`. -/
def extract_indexer_id (domain : PyStr) : PyStr :=
  afterLastDot (rstripSlash
    (pyReplace (pyReplace domain (ps "http://") []) (ps "https://") []))


/-! ### Indexer sync (`_sync_indexers`, identical in jackettindexer and
prowlarrindexer).  The upstream fetch (`_fetch_and_build_indexers`) performs
HTTP, so its outcome is an explicit input: `none` models a failed fetch
(method returned False, plugin state untouched), `some built` the freshly
rebuilt indexer list.  The host's site registry (`SitesHelper`) is modelled
as an association list keyed by `domain`. -/

/-- One indexer dictionary; only the fields the sync loop reads are kept
(`domain` models `indexer.get("domain", "")`). -/
structure IndexerRec where
  domain : PyStr
  name : PyStr
deriving DecidableEq

/-- Plugin state touched by `_sync_indexers`: `self._indexers` plus the
host's site registry. -/
structure SyncState where
  indexers : List IndexerRec
  registry : List (PyStr × IndexerRec)
deriving DecidableEq

/-- The registration loop of `_sync_indexers` as the source executes it:
an indexer whose domain `sites_helper.get_indexer` already resolves is
skipped, but the add branch's `copy.deepcopy(indexer)` references a `copy`
module neither plugin ever imports, so reaching it raises `NameError`
before `add_indexer` runs.  `none` models that exception escaping the
loop; the loop completes (returning the registry as it was, nothing to
add) only when every fetched domain is already registered. -/
def register_new_indexers (regs : List (PyStr × IndexerRec)) :
    List IndexerRec → Option (List (PyStr × IndexerRec))
  | [] => some regs
  | ix :: rest =>
    if (regs.lookup ix.domain).isSome then register_new_indexers regs rest
    else none

/-- `_sync_indexers`: rebuild the indexer list wholesale
(`_fetch_and_build_indexers`; a failed fetch is the `none` input and
returns False with state untouched), then run the registration loop.  The
`NameError` raised there is swallowed by the method's broad `except`,
which returns False — with `self._indexers` already rebuilt and the
registry untouched. -/
def sync_indexers (fetched : Option (List IndexerRec)) (st : SyncState) :
    Bool × SyncState :=
  match fetched with
  | none => (false, st)
  | some built =>
    match register_new_indexers st.registry built with
    | some regs => (true, { indexers := built, registry := regs })
    | none => (false, { indexers := built, registry := st.registry })

/-! ### Trakt OAuth token refresh (`__refresh_access_token`, traktsync).
Timestamps are seconds as integers; the single HTTP POST is an explicit
input (`TraktPostOutcome`); the third component of the result counts the
refresh POSTs issued during the call. -/

/-- The token triple held on the plugin instance. -/
structure TraktTokens where
  access_token : Option PyStr
  refresh_token : Option PyStr
  token_expires_at : Option Int
deriving DecidableEq

/-- Body of a 200 response from the OAuth token endpoint
(`token_data.get(...)` fields). -/
structure TraktTokenData where
  access_token : Option PyStr
  refresh_token : Option PyStr
  expires_in : Option Int
deriving DecidableEq

/-- Outcome of the refresh POST: the request raised, returned no response,
or returned a response with a status code and JSON body. -/
inductive TraktPostOutcome where
  | exn
  | noResp
  | resp (status : Int) (data : TraktTokenData)
deriving DecidableEq

/-- Python truthiness of an optional string (`None` and `""` are falsy). -/
def pyTruthyOptStr : Option PyStr → Bool
  | none => false
  | some s => !s.isEmpty

/-- `__refresh_access_token`.  The guard `self._access_token and
self._token_expires_at` followed by `self._token_expires_at > now +
timedelta(days=7)` short-circuits with True and no HTTP; otherwise exactly
one POST is issued and the tokens are rewritten only on a 200 response
(`expires_in` defaults to 7776000 seconds, a new refresh token is stored
only when the body supplies a truthy one). -/
def refresh_access_token (st : TraktTokens) (now : Int) (post : TraktPostOutcome) :
    Bool × TraktTokens × Nat :=
  if pyTruthyOptStr st.access_token ∧ st.token_expires_at.isSome ∧
      now + 7 * 86400 < st.token_expires_at.getD 0 then
    (true, st, 0)
  else
    match post with
    | .exn => (false, st, 1)
    | .noResp => (false, st, 1)
    | .resp status data =>
      if status ≠ 200 then (false, st, 1)
      else
        (true,
          { access_token := data.access_token,
            refresh_token := if pyTruthyOptStr data.refresh_token then data.refresh_token
                             else st.refresh_token,
            token_expires_at := some (now + data.expires_in.getD 7776000) }, 1)

/-! ### Result-item mappers.  `TorrentInfo` keeps the fields some verified
property mentions; the `pubdate` string reformatting
(`_parse_rfc2822_date` / `_parse_publish_date`) is omitted because no
property refers to it.  Volume factors are exact rationals: the Python
floats involved (0.0, 0.5, 1.0, 2.0) are all exactly representable. -/

/-- Python `str.isdigit()` restricted to ASCII digits (the only digits the
upstream feeds emit; Python additionally accepts other Unicode digit
characters, on which `int()` may still raise and fall back to the default,
so the ASCII restriction does not change the modelled outcomes). -/
def isDigitString (s : PyStr) : Bool := !s.isEmpty && s.all Char.isDigit

/-- Numeric value of an ASCII digit string (`int(s)` for such `s`). -/
def digitsToNat (s : PyStr) : Nat := s.foldl (fun a c => 10 * a + (c.toNat - 48)) 0

/-- Python `str(n)` for an `int`. -/
def intToPyStr (n : Int) : PyStr :=
  if n < 0 then '-' :: Nat.toDigits 10 n.natAbs else Nat.toDigits 10 n.natAbs

/-- The uniform torrent record built by both mappers. -/
structure TorrentInfo where
  title : PyStr
  enclosure : PyStr
  description : PyStr
  size : Int
  seeders : Int
  peers : Int
  page_url : PyStr
  site_name : PyStr
  imdbid : PyStr
  downloadvolumefactor : ℚ
  uploadvolumefactor : ℚ
  grabs : Int
deriving DecidableEq

/-- Argument of `_format_imdb_id` (`Any` in the source: the integer, string
and None shapes actually supplied by the two call sites). -/
inductive ImdbVal where
  | null
  | int (n : Int)
  | str (s : PyStr)
deriving DecidableEq

/-- Python truthiness of the `_format_imdb_id` argument. -/
def pyFalsyImdb : ImdbVal → Bool
  | .null => true
  | .int n => n == 0
  | .str s => s.isEmpty

/-- Python `str(...)` on the same argument. -/
def pyStrOfImdb : ImdbVal → PyStr
  | .null => ps "None"
  | .int n => intToPyStr n
  | .str s => s

/-- `_format_imdb_id` (identical in jackettindexer and prowlarrindexer). -/
def format_imdb_id (v : ImdbVal) : PyStr :=
  if pyFalsyImdb v then []
  else
    let s := pyStrOfImdb v
    if startsWith (ps "tt") s then s else 't' :: 't' :: s

/-- One Torznab `<item>`: the text of each tag read by the parser (`none`
when the tag is absent, making `DomUtils.tag_value` return its default),
the `url` attribute of the first `<enclosure>`, and the ordered
`torznab:attr` name/value pairs. -/
structure TorznabItem where
  title : Option PyStr
  enclosureUrl : Option PyStr
  link : Option PyStr
  size : Option PyStr
  description : Option PyStr
  comments : Option PyStr
  guid : Option PyStr
  attrs : List (PyStr × PyStr)
deriving DecidableEq

/-- `DomUtils.tag_value(item, tag, default=...)`. -/
def tag_value (v : Option PyStr) (default : PyStr) : PyStr := v.getD default

/-- The `torznab:attr` scan shared by the `_get_torznab_attr*` helpers:
`value` of the first attribute with the given name, if any. -/
def lookup_attr (item : TorznabItem) (attr_name : PyStr) : Option PyStr :=
  (item.attrs.find? (fun p => p.1 == attr_name)).map (fun p => p.2)

/-- `_get_torznab_attr`: value of the first `torznab:attr` with the given
name, else the default. -/
def get_torznab_attr (item : TorznabItem) (attr_name default : PyStr) : PyStr :=
  (lookup_attr item attr_name).getD default

/-- `_get_torznab_attr_int`: looked-up value (default rendered through
`str(default)`) parsed with `int` when it `isdigit()`, else the default. -/
def get_torznab_attr_int (item : TorznabItem) (attr_name : PyStr) (default : Int) : Int :=
  let value := get_torznab_attr item attr_name (intToPyStr default)
  if isDigitString value then (digitsToNat value : Int) else default

/-- Rational value of `ip + "." + fp` for ASCII digit strings. -/
def decimalFrac (ip fp : PyStr) : ℚ :=
  (digitsToNat ip : ℚ) + (digitsToNat fp : ℚ) / (10 : ℚ) ^ fp.length

/-- Unsigned decimal accepted by Python `float(...)`: digits, optionally a
dot and further digits, at least one digit overall. -/
def pyParseUnsigned? (s : PyStr) : Option ℚ :=
  let ip := s.takeWhile Char.isDigit
  let rest := s.dropWhile Char.isDigit
  match rest with
  | [] => if ip.isEmpty then none else some (digitsToNat ip : ℚ)
  | '.' :: fp =>
    if fp.all Char.isDigit ∧ (ip ≠ [] ∨ fp ≠ []) then some (decimalFrac ip fp) else none
  | _ => none

/-- Python `float(value)` on plain signed decimals, the only shape Torznab
feeds put in `downloadvolumefactor`; other accepted forms (exponents,
inf/nan, surrounding whitespace) are outside the modelled input space and
collapse to the parse-failure default, as the source's except-branch does
for genuinely malformed input. -/
def pyParseDecimal? : PyStr → Option ℚ
  | '-' :: rest => (pyParseUnsigned? rest).map (fun q => -q)
  | '+' :: rest => pyParseUnsigned? rest
  | s => pyParseUnsigned? s

/-- `_get_torznab_attr_float`: on a missing attribute the source parses
`str(default)` back, yielding the default. -/
def get_torznab_attr_float (item : TorznabItem) (attr_name : PyStr) (default : ℚ) : ℚ :=
  match lookup_attr item attr_name with
  | none => default
  | some v => (pyParseDecimal? v).getD default

/-- `_parse_torznab_item` (jackettindexer). -/
def parse_torznab_item (item : TorznabItem) (site_name : PyStr) : Option TorrentInfo :=
  let title := tag_value item.title []
  if title.isEmpty then none
  else
    let enclosure0 := tag_value item.enclosureUrl []
    let enclosure1 := if enclosure0.isEmpty then tag_value item.link [] else enclosure0
    let magnet_url := get_torznab_attr item (ps "magneturl") []
    let enclosure := if !magnet_url.isEmpty then magnet_url else enclosure1
    if enclosure.isEmpty then none
    else
      let size_str := tag_value item.size (ps "0")
      let size : Int := if isDigitString size_str then (digitsToNat size_str : Int) else 0
      let seeders := get_torznab_attr_int item (ps "seeders") 0
      let peers := get_torznab_attr_int item (ps "peers") 0
      let leechers := max 0 (peers - seeders)
      let description := tag_value item.description []
      let comments := tag_value item.comments []
      let page_url := if !comments.isEmpty then comments else tag_value item.guid []
      let imdb_id := get_torznab_attr item (ps "imdbid") []
      let grabs := get_torznab_attr_int item (ps "grabs") 0
      let download_factor := get_torznab_attr_float item (ps "downloadvolumefactor") 1
      some { title := title, enclosure := enclosure, description := description,
             size := size, seeders := seeders, peers := leechers,
             page_url := page_url, site_name := site_name,
             imdbid := format_imdb_id (.str imdb_id),
             downloadvolumefactor := download_factor, uploadvolumefactor := 1,
             grabs := grabs }


/-! ### Prowlarr result mapper (`_parse_torrent_info`, prowlarrindexer). -/

/-- Shape of the JSON `indexerFlags` field: a list of string tags, a legacy
integer bitmask, or anything else (including an absent key, whose default
`[]` behaves like `strs []`). -/
inductive IndexerFlagsVal where
  | strs (flags : List PyStr)
  | int (n : Int)
  | other
deriving DecidableEq

/-- One Prowlarr search-result JSON object; string fields model
`item.get(key, "")` (absent/None collapse to the empty string, exactly the
falsy cases the source tests). -/
structure ProwlarrItem where
  title : PyStr
  downloadUrl : PyStr
  magnetUrl : PyStr
  sortTitle : PyStr
  size : Int
  seeders : Int
  leechers : Int
  infoUrl : PyStr
  guid : PyStr
  indexerFlags : IndexerFlagsVal
  imdbId : ImdbVal
deriving DecidableEq

/-- The freeleech string variants recognised by the source. -/
def freeleech_flag_tags : List PyStr :=
  [ps "g_freeleech", ps "freeleech", ps "g_personalfreeleech", ps "personalfreeleech"]

/-- The halfleech string variants recognised by the source. -/
def halfleech_flag_tags : List PyStr := [ps "g_halfleech", ps "halfleech"]

/-- The double-upload string variants recognised by the source. -/
def doubleupload_flag_tags : List PyStr := [ps "g_doubleupload", ps "doubleupload"]

/-- `any(flag in flags_lower for flag in tags)`. -/
def hasAnyFlag (tags flags_lower : List PyStr) : Bool :=
  tags.any (fun t => flags_lower.contains t)

/-- The indexer-flag block of `_parse_torrent_info`, producing the
`(downloadvolumefactor, uploadvolumefactor)` pair.  String tags are
lowercased first (`str(flag).lower()`; `Char.toLower` matches Python on the
ASCII tags being compared).  In the string branch freeleech wins over
halfleech (an `elif`), as does bit 1/32 over bit 4 in the integer branch. -/
def parse_indexer_flags : IndexerFlagsVal → ℚ × ℚ
  | .strs flags =>
    if flags.isEmpty then (1, 1)
    else
      let flags_lower := flags.map (fun f => f.map Char.toLower)
      ((if hasAnyFlag freeleech_flag_tags flags_lower then 0
        else if hasAnyFlag halfleech_flag_tags flags_lower then 1/2 else 1),
       (if hasAnyFlag doubleupload_flag_tags flags_lower then 2 else 1))
  | .int n =>
    ((if Int.land n 1 ≠ 0 ∨ Int.land n 32 ≠ 0 then 0
      else if Int.land n 4 ≠ 0 then 1/2 else 1),
     (if Int.land n 8 ≠ 0 then 2 else 1))
  | .other => (1, 1)

/-- `_parse_torrent_info` (prowlarrindexer).  `grabs` is not set by this
plugin and keeps the host dataclass default 0. -/
def parse_torrent_info (item : ProwlarrItem) (site_name : PyStr) : Option TorrentInfo :=
  if item.title.isEmpty then none
  else
    let enclosure := if !item.downloadUrl.isEmpty then item.downloadUrl else item.magnetUrl
    if enclosure.isEmpty then none
    else
      let factors := parse_indexer_flags item.indexerFlags
      some { title := item.title, enclosure := enclosure,
             description := item.sortTitle, size := item.size,
             seeders := item.seeders, peers := item.leechers,
             page_url := if !item.infoUrl.isEmpty then item.infoUrl else item.guid,
             site_name := site_name, imdbid := format_imdb_id item.imdbId,
             downloadvolumefactor := factors.1, uploadvolumefactor := factors.2,
             grabs := 0 }

/-! ### Keyword filtering and the `search_torrents` entry gate.  The gate
models the portion of `search_torrents` that runs before the first upstream
HTTP request: `earlyEmpty` means the method returns `[]` without issuing
any request, `proceed id` that it goes on to call the upstream API with the
extracted indexer id. -/

/-- Python `str`-pattern whitespace (`\s` of `re`, also the `str.strip`
set): the Unicode White_Space code points. -/
def isPySpace (c : Char) : Bool :=
  [9, 10, 11, 12, 13, 28, 29, 30, 31, 32, 133, 160, 5760,
   8192, 8193, 8194, 8195, 8196, 8197, 8198, 8199, 8200, 8201, 8202,
   8232, 8233, 8239, 8287, 12288].contains c.toNat

/-- Python `keyword.strip()`. -/
def pyStrip (s : PyStr) : PyStr :=
  ((s.dropWhile isPySpace).reverse.dropWhile isPySpace).reverse

/-- `_is_imdb_id` (identical in both indexer plugins):
`re.match(r'^tt\d\x7b7,\x7d$', keyword.strip())` with `\d` modelled as the
ASCII digits the IMDb scheme uses. -/
def is_imdb_id (keyword : PyStr) : Bool :=
  if keyword.isEmpty then false
  else
    match pyStrip keyword with
    | 't' :: 't' :: ds => decide (7 ≤ ds.length) && ds.all Char.isDigit
    | _ => false

/-- The character class removed by `_is_english_keyword`'s
`re.sub(r'[.,!?;:()\[\]\x7b\x7d\s\-_]+', '', keyword)`. -/
def isFilteredPunct (c : Char) : Bool :=
  c ∈ ['.', ',', '!', '?', ';', ':', '(', ')', '[', ']',
       Char.ofNat 123, Char.ofNat 125, '-', '_'] || isPySpace c

/-- `re.sub(...)` of `_is_english_keyword`: the keyword with the punctuation
class and whitespace removed. -/
def clean_keyword (keyword : PyStr) : PyStr :=
  keyword.filter (fun c => !isFilteredPunct c)

/-- The CJK test of `_is_english_keyword` (Chinese, Hiragana, Katakana,
Korean code-point ranges). -/
def isCJKChar (c : Char) : Bool :=
  decide ((0x4e00 ≤ c.toNat ∧ c.toNat ≤ 0x9fff) ∨
          (0x3040 ≤ c.toNat ∧ c.toNat ≤ 0x309f) ∨
          (0x30a0 ≤ c.toNat ∧ c.toNat ≤ 0x30ff) ∨
          (0xac00 ≤ c.toNat ∧ c.toNat ≤ 0xd7af))

/-- `ord(c) < 128`. -/
def isAsciiCodePoint (c : Char) : Bool := decide (c.toNat < 128)

/-- `_is_english_keyword` (identical in both indexer plugins).  The float
ratio comparisons `ascii/total > 0.5` and `cjk/total > 0.3` are modelled by
the exact cross-multiplied integer comparisons; double rounding could only
disagree for keywords longer than about 10^15 characters. -/
def is_english_keyword (keyword : PyStr) : Bool :=
  if keyword.isEmpty then false
  else
    let cleaned := clean_keyword keyword
    if cleaned.isEmpty then true
    else
      let ascii_count := cleaned.countP isAsciiCodePoint
      let total_count := cleaned.length
      let cjk_count := cleaned.countP isCJKChar
      if 0 < cjk_count ∧ 3 * total_count < 10 * cjk_count then false
      else decide (total_count < 2 * ascii_count)

/-- The site dictionary fields the gate reads. -/
structure SiteDict where
  name : Option PyStr
  domain : Option PyStr
deriving DecidableEq

/-- `site_name.split("-")[0] if "-" in site_name else site_name`. -/
def split_site_head (s : PyStr) : PyStr :=
  if s.contains '-' then s.takeWhile (· != '-') else s

/-- `plugin_name` of jackettindexer. -/
def jackett_plugin_name : PyStr := ps "Jackett索引器"

/-- `plugin_name` of prowlarrindexer. -/
def prowlarr_plugin_name : PyStr := ps "Prowlarr索引器"

/-- Result of the pre-HTTP portion of `search_torrents`. -/
inductive SearchGate where
  | earlyEmpty
  | proceed (indexer_id : PyStr)
deriving DecidableEq

/-- The pre-HTTP portion of jackettindexer's `search_torrents`: empty
keyword, non-English non-IMDb keyword, missing/foreign site name, missing
domain and empty extracted id all return `[]` before any request. -/
def jackett_search_gate (site : SiteDict) (keyword : PyStr) : SearchGate :=
  if keyword.isEmpty then .earlyEmpty
  else if !is_imdb_id keyword && !is_english_keyword keyword then .earlyEmpty
  else
    let site_name := site.name.getD []
    if site_name.isEmpty then .earlyEmpty
    else if split_site_head site_name ≠ jackett_plugin_name then .earlyEmpty
    else
      let domain := site.domain.getD []
      if domain.isEmpty then .earlyEmpty
      else
        let indexer_id := extract_indexer_id domain
        if indexer_id.isEmpty then .earlyEmpty
        else .proceed indexer_id

/-- The pre-HTTP portion of prowlarrindexer's `search_torrents` (site-name
checks come first there, and the extracted id must be all digits). -/
def prowlarr_search_gate (site : SiteDict) (keyword : PyStr) : SearchGate :=
  if keyword.isEmpty then .earlyEmpty
  else
    let site_name := site.name.getD []
    if site_name.isEmpty then .earlyEmpty
    else if split_site_head site_name ≠ prowlarr_plugin_name then .earlyEmpty
    else if !is_imdb_id keyword && !is_english_keyword keyword then .earlyEmpty
    else
      let domain := site.domain.getD []
      if domain.isEmpty then .earlyEmpty
      else
        let idStr := extract_indexer_id domain
        if idStr.isEmpty || !idStr.all Char.isDigit then .earlyEmpty
        else .proceed idStr

/-! ### Generic list/string lemmas used by the codec proofs -/

theorem replaceFuel_eq_self {old new s : PyStr} (h : containsSub s old = false) :
    ∀ fuel, replaceFuel old new fuel s = s := by
  induction s with
  | nil => intro fuel; cases fuel <;> rfl
  | cons c rest ih =>
    intro fuel
    simp only [containsSub, Bool.or_eq_false_iff] at h
    cases fuel with
    | zero => rfl
    | succ n =>
      simp only [replaceFuel]
      rw [if_neg (by simp [h.1])]
      exact congrArg (c :: ·) (ih h.2 n)

theorem pyReplace_eq_self {old s : PyStr} (new : PyStr)
    (h : containsSub s old = false) : pyReplace s old new = s :=
  replaceFuel_eq_self h s.length

theorem containsSub_append_false {o : Char} {ot id : PyStr} (pre : PyStr)
    (hpre : o ∉ pre) (hid : containsSub id (o :: ot) = false) :
    containsSub (pre ++ id) (o :: ot) = false := by
  induction pre with
  | nil => simpa using hid
  | cons p pt ih =>
    have hne : o ≠ p := fun h => hpre (h ▸ List.mem_cons_self p pt)
    have hmem : o ∉ pt := fun h => hpre (List.mem_cons_of_mem p h)
    simp only [List.cons_append, containsSub, Bool.or_eq_false_iff]
    refine ⟨?_, ih hmem⟩
    simp [startsWith, hne]

theorem rstripSlash_eq_self {s : PyStr} (h : s.getLast? ≠ some '/') :
    rstripSlash s = s := by
  unfold rstripSlash
  cases hr : s.reverse with
  | nil =>
    have : s = [] := List.reverse_eq_nil_iff.mp hr
    simp [this]
  | cons c t =>
    have hcl : s.getLast? = some c := by
      rw [← List.head?_reverse, hr]; rfl
    have hc : (c == '/') = false := by
      rcases Bool.eq_false_or_eq_true (c == '/') with h' | h'
      · exact absurd (hcl.trans (by rw [beq_iff_eq.mp h'])) h
      · exact h'
    rw [List.dropWhile_cons, hc]
    simp only [Bool.false_eq_true, if_false]
    rw [← hr, List.reverse_reverse]

theorem takeWhile_append_all {p : Char → Bool} {l₁ : PyStr} (l₂ : PyStr)
    (h : ∀ c ∈ l₁, p c = true) :
    (l₁ ++ l₂).takeWhile p = l₁ ++ l₂.takeWhile p := by
  induction l₁ with
  | nil => rfl
  | cons a t ih =>
    have ha : p a = true := h a (List.mem_cons_self a t)
    simp only [List.cons_append, List.takeWhile_cons, ha, if_true]
    rw [ih fun c hc => h c (List.mem_cons_of_mem a hc)]

theorem afterLastDot_jackett (id : PyStr) (h : '.' ∉ id) :
    afterLastDot (ps "jackett_indexer." ++ id) = id := by
  unfold afterLastDot
  rw [List.reverse_append]
  rw [takeWhile_append_all ((ps "jackett_indexer.").reverse)
    (fun c hc => by
      have : c ∈ id := List.mem_reverse.mp hc
      simp only [bne_iff_ne, ne_eq]
      exact fun hcd => h (hcd ▸ this))]
  have : ((ps "jackett_indexer.").reverse).takeWhile (· != '.') = [] := by decide
  rw [this]
  simp

theorem build_indexer_domain_eq (id : PyStr) :
    build_indexer_domain id = ps "jackett_indexer." ++ id := by
  have h : build_indexer_domain id = ps "jackett_indexer." ++ (id ++ []) := rfl
  simpa using h

/-! ### Claim theorems -/

/-- C1 (counterexample): the round-trip claimed for every indexer id without
a `'.'` fails: `"42/"` contains no dot, yet decoding the encoded domain
yields `"42"` (the decoder's `rstrip("/")` eats the trailing slash). -/
theorem jackett_domain_roundtrip_counterexample :
    ('.' ∉ ps "42/") ∧
    extract_indexer_id (build_indexer_domain (ps "42/")) ≠ ps "42/" := by
  decide

/-- C1 (amended): encoding is the string concatenation
`"jackett_indexer." ++ id`, and for every indexer id containing no `'.'`,
not containing `"http://"` or `"https://"` as a substring, and not ending in
`'/'`, decoding the encoded domain returns the id. -/
theorem jackett_domain_codec_roundtrip (id : PyStr)
    (h1 : '.' ∉ id)
    (h2 : containsSub id (ps "http://") = false)
    (h3 : containsSub id (ps "https://") = false)
    (h4 : id.getLast? ≠ some '/') :
    build_indexer_domain id = ps "jackett_indexer." ++ id ∧
    extract_indexer_id (build_indexer_domain id) = id := by
  refine ⟨build_indexer_domain_eq id, ?_⟩
  rw [build_indexer_domain_eq]
  unfold extract_indexer_id
  have e2 : ps "http://" = 'h' :: ps "ttp://" := rfl
  have e3 : ps "https://" = 'h' :: ps "ttps://" := rfl
  have hh : 'h' ∉ ps "jackett_indexer." := by decide
  have r1 : containsSub (ps "jackett_indexer." ++ id) (ps "http://") = false := by
    rw [e2] at h2 ⊢; exact containsSub_append_false _ hh h2
  have r2 : containsSub (ps "jackett_indexer." ++ id) (ps "https://") = false := by
    rw [e3] at h3 ⊢; exact containsSub_append_false _ hh h3
  rw [pyReplace_eq_self _ r1, pyReplace_eq_self _ r2]
  have hlast : (ps "jackett_indexer." ++ id).getLast? ≠ some '/' := by
    cases id with
    | nil => simp only [List.append_nil]; decide
    | cons a t =>
      rw [List.getLast?_append_of_ne_nil _ (by simp)]
      exact h4
  rw [rstripSlash_eq_self hlast]
  exact afterLastDot_jackett id h1

/-- C1 (witness for the amended round-trip at id `"42"`). -/
theorem jackett_domain_codec_roundtrip_witness :
    extract_indexer_id (build_indexer_domain (ps "42")) = ps "42" :=
  (jackett_domain_codec_roundtrip (ps "42")
    (by decide) (by decide) (by decide) (by decide)).2

/-- C2 (code bug): `_sync_indexers` cannot register a new indexer.  When a
fetched indexer's domain is absent from the registry, the add branch's
`copy.deepcopy(indexer)` raises `NameError` (the `copy` module is never
imported in either plugin), the broad handler catches it, nothing is
added, and the method returns False — against the claim and the method's
own docstring ("register new ones ... True if sync successful").  Only a
sync in which every fetched domain is already registered returns True. -/
theorem sync_indexers_namerror_bug :
    (sync_indexers (some [⟨ps "jackett_indexer.a", ps "A"⟩]) ⟨[], []⟩).1 = false ∧
    (sync_indexers (some [⟨ps "jackett_indexer.a", ps "A"⟩]) ⟨[], []⟩).2.registry = [] ∧
    (sync_indexers (some [⟨ps "jackett_indexer.a", ps "A"⟩])
        ⟨[], [(ps "jackett_indexer.a", ⟨ps "jackett_indexer.a", ps "A"⟩)]⟩).1 = true := by
  decide

/-- C3 (counterexample): with no stored access token the guard
`self._access_token and self._token_expires_at` fails even though the
stored expiry is 100 days in the future, so the refresh POST is issued
(here failing with no response) and the call returns False — against the
claim that a far-future expiry alone suffices to skip HTTP and succeed. -/
theorem refresh_token_skip_counterexample :
    (refresh_access_token ⟨none, some (ps "r"), some (100 * 86400)⟩ 0 .noResp).2.2 = 1 ∧
    (refresh_access_token ⟨none, some (ps "r"), some (100 * 86400)⟩ 0 .noResp).1 = false := by
  decide

/-- C3 (amended): when a non-empty access token is stored and the stored
expiry is more than 7 days in the future, the refresh operation makes no
HTTP call and returns success with the state untouched; whenever a stored
expiry is within 7 days or already past, exactly one refresh POST is
issued. -/
theorem refresh_token_state_machine (st : TraktTokens) (now : Int)
    (post : TraktPostOutcome) :
    (∀ tok, st.access_token = some tok → tok ≠ [] →
      ∀ e, st.token_expires_at = some e → now + 7 * 86400 < e →
        refresh_access_token st now post = (true, st, 0)) ∧
    (∀ e, st.token_expires_at = some e → e ≤ now + 7 * 86400 →
      (refresh_access_token st now post).2.2 = 1) := by
  constructor
  · intro tok htok hne e he hlt
    have hcond : pyTruthyOptStr st.access_token = true ∧
        st.token_expires_at.isSome = true ∧
        now + 7 * 86400 < st.token_expires_at.getD 0 := by
      refine ⟨?_, ?_, ?_⟩
      · rw [htok]; simpa [pyTruthyOptStr] using hne
      · rw [he]; rfl
      · rw [he]; exact hlt
    unfold refresh_access_token
    rw [if_pos hcond]
  · intro e he hle
    have hcond : ¬ (pyTruthyOptStr st.access_token = true ∧
        st.token_expires_at.isSome = true ∧
        now + 7 * 86400 < st.token_expires_at.getD 0) := by
      rintro ⟨-, -, hlt⟩
      rw [he] at hlt
      exact absurd hlt (not_lt.mpr hle)
    unfold refresh_access_token
    rw [if_neg hcond]
    cases post with
    | exn => rfl
    | noResp => rfl
    | resp status data => by_cases h : status = 200 <;> simp [h]

/-- C3 (witness): the amended statement at a valid token (skip) and at an
expired token (one POST). -/
theorem refresh_token_state_machine_witness :
    refresh_access_token ⟨some (ps "t"), some (ps "r"), some 1000000000⟩ 0 .noResp =
      (true, ⟨some (ps "t"), some (ps "r"), some 1000000000⟩, 0) ∧
    (refresh_access_token ⟨some (ps "t"), some (ps "r"), some 100⟩ 0 .noResp).2.2 = 1 :=
  ⟨(refresh_token_state_machine ⟨some (ps "t"), some (ps "r"), some 1000000000⟩
      0 .noResp).1 (ps "t") rfl (by decide) 1000000000 rfl (by decide),
   (refresh_token_state_machine ⟨some (ps "t"), some (ps "r"), some 100⟩
      0 .noResp).2 100 rfl (by decide)⟩

/-- C4: whenever the refresh POST is actually reached (the skip guard
fails) and the POST fails — exception, no response, or a non-200 status —
the operation returns False and the stored access token, refresh token and
expiry are all left unchanged; only a 200 response rewrites them (to the
response's fields, keeping the old refresh token when none is supplied). -/
theorem refresh_failure_keeps_tokens (st : TraktTokens) (now : Int)
    (hguard : ¬ (pyTruthyOptStr st.access_token = true ∧
        st.token_expires_at.isSome = true ∧
        now + 7 * 86400 < st.token_expires_at.getD 0)) :
    ((refresh_access_token st now .exn).1 = false ∧
      (refresh_access_token st now .exn).2.1 = st) ∧
    ((refresh_access_token st now .noResp).1 = false ∧
      (refresh_access_token st now .noResp).2.1 = st) ∧
    (∀ status data, status ≠ 200 →
      (refresh_access_token st now (.resp status data)).1 = false ∧
      (refresh_access_token st now (.resp status data)).2.1 = st) ∧
    (∀ data,
      (refresh_access_token st now (.resp 200 data)).1 = true ∧
      (refresh_access_token st now (.resp 200 data)).2.1 =
        { access_token := data.access_token,
          refresh_token := if pyTruthyOptStr data.refresh_token then data.refresh_token
                           else st.refresh_token,
          token_expires_at := some (now + data.expires_in.getD 7776000) }) := by
  have key : ∀ p, refresh_access_token st now p =
      (match p with
       | .exn => (false, st, 1)
       | .noResp => (false, st, 1)
       | .resp status data =>
         if status ≠ 200 then (false, st, 1)
         else
           (true,
             { access_token := data.access_token,
               refresh_token := if pyTruthyOptStr data.refresh_token then data.refresh_token
                                else st.refresh_token,
               token_expires_at := some (now + data.expires_in.getD 7776000) }, 1)) := by
    intro p
    unfold refresh_access_token
    exact if_neg hguard
  refine ⟨?_, ?_, ?_, ?_⟩
  · rw [key]; exact ⟨rfl, rfl⟩
  · rw [key]; exact ⟨rfl, rfl⟩
  · intro status data hne
    rw [key]
    simp [hne]
  · intro data
    rw [key]
    simp

/-- C4 (witness): an expired-token state, exercised on the no-response
failure and on a 200 success. -/
theorem refresh_failure_keeps_tokens_witness :
    ((refresh_access_token ⟨some (ps "t"), some (ps "r"), some 0⟩ 5 .exn).1 = false ∧
      (refresh_access_token ⟨some (ps "t"), some (ps "r"), some 0⟩ 5 .exn).2.1 =
        ⟨some (ps "t"), some (ps "r"), some 0⟩) ∧
    ((refresh_access_token ⟨some (ps "t"), some (ps "r"), some 0⟩ 5 .noResp).1 = false ∧
      (refresh_access_token ⟨some (ps "t"), some (ps "r"), some 0⟩ 5 .noResp).2.1 =
        ⟨some (ps "t"), some (ps "r"), some 0⟩) ∧
    (∀ status data, status ≠ 200 →
      (refresh_access_token ⟨some (ps "t"), some (ps "r"), some 0⟩ 5
          (.resp status data)).1 = false ∧
      (refresh_access_token ⟨some (ps "t"), some (ps "r"), some 0⟩ 5
          (.resp status data)).2.1 = ⟨some (ps "t"), some (ps "r"), some 0⟩) ∧
    (∀ data,
      (refresh_access_token ⟨some (ps "t"), some (ps "r"), some 0⟩ 5
          (.resp 200 data)).1 = true ∧
      (refresh_access_token ⟨some (ps "t"), some (ps "r"), some 0⟩ 5
          (.resp 200 data)).2.1 =
        { access_token := data.access_token,
          refresh_token := if pyTruthyOptStr data.refresh_token then data.refresh_token
                           else some (ps "r"),
          token_expires_at := some (5 + data.expires_in.getD 7776000) }) :=
  refresh_failure_keeps_tokens ⟨some (ps "t"), some (ps "r"), some 0⟩ 5 (by decide)

/-- C5: an upstream result item with no title, or with no resolvable
download link — no enclosure URL, no `<link>` and no `magneturl` attribute
for a Torznab item; no `downloadUrl` and no `magnetUrl` for a Prowlarr
item — is dropped by the mapper (it returns `none`), whatever the other
fields hold. -/
theorem mappers_drop_incomplete_items :
    (∀ (item : TorznabItem) (sn : PyStr),
      (tag_value item.title [] = [] ∨
        (tag_value item.enclosureUrl [] = [] ∧ tag_value item.link [] = [] ∧
          get_torznab_attr item (ps "magneturl") [] = [])) →
      parse_torznab_item item sn = none) ∧
    (∀ (item : ProwlarrItem) (sn : PyStr),
      (item.title = [] ∨ (item.downloadUrl = [] ∧ item.magnetUrl = [])) →
      parse_torrent_info item sn = none) := by
  constructor
  · intro item sn h
    rcases h with h | ⟨h1, h2, h3⟩
    · simp [parse_torznab_item, h]
    · by_cases ht : tag_value item.title [] = []
      · simp [parse_torznab_item, ht]
      · simp [parse_torznab_item, ht, h1, h2, h3]
  · intro item sn h
    rcases h with h | ⟨h1, h2⟩
    · simp [parse_torrent_info, h]
    · by_cases ht : item.title = []
      · simp [parse_torrent_info, ht]
      · simp [parse_torrent_info, ht, h1, h2]

/-- C5 (witness): a Torznab item carrying only a size and a seeders
attribute but no title, and a Prowlarr item with a title but no links, are
both dropped. -/
theorem mappers_drop_incomplete_items_witness :
    parse_torznab_item
      ⟨none, none, none, some (ps "100"), none, none, none,
        [(ps "seeders", ps "5")]⟩ (ps "s") = none ∧
    parse_torrent_info
      ⟨ps "Some.Title", [], [], ps "st", 100, 5, 2, [], [], .strs [], .null⟩
      (ps "s") = none :=
  ⟨mappers_drop_incomplete_items.1 _ _
      (Or.inr ⟨rfl, rfl, by decide⟩),
   mappers_drop_incomplete_items.2 _ _ (Or.inr ⟨rfl, rfl⟩)⟩

/-- With a title and an enclosure URL present, `_parse_torznab_item`
returns the record below (the enclosure being the magnet attribute when one
is present, the enclosure URL otherwise). -/
theorem parse_torznab_item_eq_some (item : TorznabItem) (sn : PyStr)
    (ht : tag_value item.title [] ≠ []) (he : tag_value item.enclosureUrl [] ≠ []) :
    parse_torznab_item item sn = some
      { title := tag_value item.title [],
        enclosure := if !(get_torznab_attr item (ps "magneturl") []).isEmpty
                     then get_torznab_attr item (ps "magneturl") []
                     else tag_value item.enclosureUrl [],
        description := tag_value item.description [],
        size := if isDigitString (tag_value item.size (ps "0"))
                then (digitsToNat (tag_value item.size (ps "0")) : Int) else 0,
        seeders := get_torznab_attr_int item (ps "seeders") 0,
        peers := max 0 (get_torznab_attr_int item (ps "peers") 0 -
                        get_torznab_attr_int item (ps "seeders") 0),
        page_url := if !(tag_value item.comments []).isEmpty
                    then tag_value item.comments [] else tag_value item.guid [],
        site_name := sn,
        imdbid := format_imdb_id (.str (get_torznab_attr item (ps "imdbid") [])),
        downloadvolumefactor := get_torznab_attr_float item (ps "downloadvolumefactor") 1,
        uploadvolumefactor := 1,
        grabs := get_torznab_attr_int item (ps "grabs") 0 } := by
  have ht' : (tag_value item.title []).isEmpty = false := by
    simpa [List.isEmpty_iff] using ht
  have he' : (tag_value item.enclosureUrl []).isEmpty = false := by
    simpa [List.isEmpty_iff] using he
  by_cases hm : (get_torznab_attr item (ps "magneturl") []).isEmpty
  · simp [parse_torznab_item, ht', he', hm]
  · have hm' : (get_torznab_attr item (ps "magneturl") []).isEmpty = false :=
      Bool.eq_false_iff.mpr hm
    simp [parse_torznab_item, ht', he', hm']

/-- `_get_torznab_attr_int` with default 0 yields 0 unless the attribute is
present with a digit-string value. -/
theorem get_torznab_attr_int_default_zero (item : TorznabItem) (name : PyStr)
    (h : ∀ v, lookup_attr item name = some v → isDigitString v = false) :
    get_torznab_attr_int item name 0 = 0 := by
  unfold get_torznab_attr_int get_torznab_attr
  cases hl : lookup_attr item name with
  | none => decide
  | some v => simp [h v hl]

/-- `_get_torznab_attr_int` on a present digit-string attribute parses it. -/
theorem get_torznab_attr_int_of_digits (item : TorznabItem) (name : PyStr)
    (v : PyStr) (d : Int) (hl : lookup_attr item name = some v)
    (hd : isDigitString v = true) :
    get_torznab_attr_int item name d = (digitsToNat v : Int) := by
  unfold get_torznab_attr_int get_torznab_attr
  simp [hl, hd]

/-- `_get_torznab_attr_int` with default 0 is never negative. -/
theorem get_torznab_attr_int_nonneg (item : TorznabItem) (name : PyStr) :
    0 ≤ get_torznab_attr_int item name 0 := by
  unfold get_torznab_attr_int
  simp only []
  split
  · exact Int.ofNat_nonneg _
  · exact le_refl 0

/-- C6: a well-formed Torznab item with non-empty title and enclosure URL
maps to a record (never `none`), and `size`, `seeders`, `peers` each fall
back to 0 when the corresponding tag/attribute is absent or not a digit
string. -/
theorem torznab_mapper_defaults (item : TorznabItem) (sn : PyStr)
    (ht : tag_value item.title [] ≠ []) (he : tag_value item.enclosureUrl [] ≠ []) :
    ∃ t, parse_torznab_item item sn = some t ∧
      ((∀ v, item.size = some v → isDigitString v = false) → t.size = 0) ∧
      ((∀ v, lookup_attr item (ps "seeders") = some v → isDigitString v = false) →
        t.seeders = 0) ∧
      ((∀ v, lookup_attr item (ps "peers") = some v → isDigitString v = false) →
        t.peers = 0) := by
  refine ⟨_, parse_torznab_item_eq_some item sn ht he, ?_, ?_, ?_⟩
  · intro hv
    cases hs : item.size with
    | none => simp [tag_value, hs]; decide
    | some v => simp [tag_value, hs, hv v hs]
  · intro hv
    exact get_torznab_attr_int_default_zero item _ hv
  · intro hv
    have hp := get_torznab_attr_int_default_zero item _ hv
    have hsn := get_torznab_attr_int_nonneg item (ps "seeders")
    simp only [hp]
    exact max_eq_left (by omega)

/-- C6 (witness): an item with only a title and an enclosure URL. -/
theorem torznab_mapper_defaults_witness :
    ∃ t, parse_torznab_item
        ⟨some (ps "A"), some (ps "http://x"), none, none, none, none, none, []⟩
        (ps "s") = some t ∧
      t.size = 0 ∧ t.seeders = 0 ∧ t.peers = 0 := by
  obtain ⟨t, hp, h1, h2, h3⟩ := torznab_mapper_defaults
    ⟨some (ps "A"), some (ps "http://x"), none, none, none, none, none, []⟩
    (ps "s") (by decide) (by decide)
  exact ⟨t, hp, h1 (fun v h => Option.noConfusion h),
    h2 (fun v h => Option.noConfusion h), h3 (fun v h => Option.noConfusion h)⟩

/-- C7: when digit-string `seeders` and `peers` attributes are both
supplied, the mapped record's `peers` field holds
`max(0, peers - seeders)` — the computed leecher count, not the raw peers
value. -/
theorem torznab_leechers_formula (item : TorznabItem) (sn : PyStr)
    (ht : tag_value item.title [] ≠ []) (he : tag_value item.enclosureUrl [] ≠ [])
    (sv pv : PyStr)
    (hs : lookup_attr item (ps "seeders") = some sv) (hsd : isDigitString sv = true)
    (hp : lookup_attr item (ps "peers") = some pv) (hpd : isDigitString pv = true) :
    ∃ t, parse_torznab_item item sn = some t ∧
      t.peers = max 0 ((digitsToNat pv : Int) - (digitsToNat sv : Int)) := by
  refine ⟨_, parse_torznab_item_eq_some item sn ht he, ?_⟩
  simp only [get_torznab_attr_int_of_digits item _ sv 0 hs hsd,
    get_torznab_attr_int_of_digits item _ pv 0 hp hpd]

/-- C7 (witness): seeders 3, peers 10 yield a stored peers field of 7. -/
theorem torznab_leechers_formula_witness :
    ∃ t, parse_torznab_item
        ⟨some (ps "A"), some (ps "http://x"), none, none, none, none, none,
          [(ps "seeders", ps "3"), (ps "peers", ps "10")]⟩
        (ps "s") = some t ∧ t.peers = 7 := by
  obtain ⟨t, hpt, hq⟩ := torznab_leechers_formula
    ⟨some (ps "A"), some (ps "http://x"), none, none, none, none, none,
      [(ps "seeders", ps "3"), (ps "peers", ps "10")]⟩
    (ps "s") (by decide) (by decide) (ps "3") (ps "10")
    (by decide) (by decide) (by decide) (by decide)
  exact ⟨t, hpt, by rw [hq]; decide⟩

/-- C8 (counterexample): an item carrying both a freeleech and a halfleech
tag gets `downloadvolumefactor` 0, not the 0.5 the claim assigns to any
item with a halfleech flag — the freeleech branch wins (`elif`). -/
theorem prowlarr_flag_mapping_counterexample :
    (ps "halfleech") ∈ [ps "freeleech", ps "halfleech"] ∧
    (parse_torrent_info
        ⟨ps "T", ps "http://dl", [], [], 0, 0, 0, [], [],
          .strs [ps "freeleech", ps "halfleech"], .null⟩
        (ps "s")).map (fun t => t.downloadvolumefactor) = some 0 ∧
    (0 : ℚ) ≠ 1 / 2 := by
  refine ⟨by decide, ?_, by norm_num⟩
  simp [parse_torrent_info, parse_indexer_flags, hasAnyFlag,
    freeleech_flag_tags, halfleech_flag_tags, doubleupload_flag_tags, ps]

/-- C8 (amended): the Prowlarr mapper's promo-flag lookup, with the
precedence the code applies — a freeleech flag (string variant, or bit 1 or
32) gives `downloadvolumefactor` 0; a halfleech flag (string variant, or
bit 4) gives 0.5 only when no freeleech flag is present; a doubleupload
flag (string variant, or bit 8) gives `uploadvolumefactor` 2; no flags give
1 and 1. -/
theorem prowlarr_flag_mapping (item : ProwlarrItem) (sn : PyStr)
    (ht : item.title ≠ []) (he : item.downloadUrl ≠ [] ∨ item.magnetUrl ≠ []) :
    ∃ t, parse_torrent_info item sn = some t ∧
      (∀ fl, item.indexerFlags = .strs fl → fl ≠ [] →
        (hasAnyFlag freeleech_flag_tags (fl.map (fun f => f.map Char.toLower)) = true →
          t.downloadvolumefactor = 0) ∧
        (hasAnyFlag freeleech_flag_tags (fl.map (fun f => f.map Char.toLower)) = false →
          hasAnyFlag halfleech_flag_tags (fl.map (fun f => f.map Char.toLower)) = true →
          t.downloadvolumefactor = 1 / 2) ∧
        (hasAnyFlag doubleupload_flag_tags (fl.map (fun f => f.map Char.toLower)) = true →
          t.uploadvolumefactor = 2)) ∧
      (∀ n, item.indexerFlags = .int n →
        ((Int.land n 1 ≠ 0 ∨ Int.land n 32 ≠ 0) → t.downloadvolumefactor = 0) ∧
        (Int.land n 1 = 0 → Int.land n 32 = 0 → Int.land n 4 ≠ 0 →
          t.downloadvolumefactor = 1 / 2) ∧
        (Int.land n 8 ≠ 0 → t.uploadvolumefactor = 2)) ∧
      ((item.indexerFlags = .strs [] ∨ item.indexerFlags = .other) →
        t.downloadvolumefactor = 1 ∧ t.uploadvolumefactor = 1) := by
  have he' : (if !item.downloadUrl.isEmpty then item.downloadUrl
              else item.magnetUrl) ≠ [] := by
    rcases he with h | h
    · simp [List.isEmpty_iff, h]
    · by_cases hd : item.downloadUrl = []
      · simpa [hd] using h
      · simp [List.isEmpty_iff, hd]
  have hsome : parse_torrent_info item sn = some
      { title := item.title,
        enclosure := if !item.downloadUrl.isEmpty then item.downloadUrl
                     else item.magnetUrl,
        description := item.sortTitle, size := item.size,
        seeders := item.seeders, peers := item.leechers,
        page_url := if !item.infoUrl.isEmpty then item.infoUrl else item.guid,
        site_name := sn, imdbid := format_imdb_id item.imdbId,
        downloadvolumefactor := (parse_indexer_flags item.indexerFlags).1,
        uploadvolumefactor := (parse_indexer_flags item.indexerFlags).2,
        grabs := 0 } := by
    unfold parse_torrent_info
    rw [if_neg (by simpa [List.isEmpty_iff] using ht),
      if_neg (by simpa [List.isEmpty_iff] using he')]
  refine ⟨_, hsome, ?_, ?_, ?_⟩
  · intro fl hfl hne
    rw [hfl]
    refine ⟨?_, ?_, ?_⟩
    · intro h1
      simp [parse_indexer_flags, List.isEmpty_iff, hne, h1]
    · intro h1 h2
      simp [parse_indexer_flags, List.isEmpty_iff, hne, h1, h2]
    · intro h3
      simp [parse_indexer_flags, List.isEmpty_iff, hne, h3]
  · intro n hfl
    rw [hfl]
    refine ⟨?_, ?_, ?_⟩
    · intro h1
      rcases h1 with h | h <;> simp [parse_indexer_flags, h]
    · intro h1 h32 h4
      simp [parse_indexer_flags, h1, h32, h4]
    · intro h8
      simp [parse_indexer_flags, h8]
  · intro h
    rcases h with h | h <;>
      · rw [h]
        exact ⟨rfl, rfl⟩

/-- C8 (witness): a lone halfleech tag yields factor 0.5. -/
theorem prowlarr_flag_mapping_witness :
    ∃ t, parse_torrent_info
        ⟨ps "T", ps "http://dl", [], [], 0, 0, 0, [], [],
          .strs [ps "halfleech"], .null⟩ (ps "s") = some t ∧
      t.downloadvolumefactor = 1 / 2 := by
  obtain ⟨t, hp, hstr, -, -⟩ := prowlarr_flag_mapping
    ⟨ps "T", ps "http://dl", [], [], 0, 0, 0, [], [],
      .strs [ps "halfleech"], .null⟩ (ps "s")
    (by decide) (Or.inl (by decide))
  exact ⟨t, hp, ((hstr _ rfl (by decide)).2.1 (by decide) (by decide))⟩

/-- A string the `"tt"` test accepts has shape `'t' :: 't' :: rest`. -/
theorem startsWith_tt_shape {s : PyStr} (h : startsWith (ps "tt") s = true) :
    ∃ rest, s = 't' :: 't' :: rest := by
  match s with
  | [] => exact absurd h (by decide)
  | [c] =>
    have : startsWith (ps "tt") [c] = ('t' == c && false) := rfl
    rw [this] at h
    simp at h
  | c1 :: c2 :: rest =>
    have : startsWith (ps "tt") (c1 :: c2 :: rest) =
        ('t' == c1 && ('t' == c2 && true)) := rfl
    rw [this] at h
    simp only [Bool.and_true, Bool.and_eq_true, beq_iff_eq] at h
    exact ⟨rest, by rw [← h.1, ← h.2]⟩

/-- C9: `_format_imdb_id` renders `137523` as `"tt137523"`, keeps
`"tt0137523"` unchanged, and is idempotent: re-formatting any formatted
result (a string by then) changes nothing. -/
theorem format_imdb_id_spec :
    format_imdb_id (.int 137523) = ps "tt137523" ∧
    format_imdb_id (.str (ps "tt0137523")) = ps "tt0137523" ∧
    ∀ v : ImdbVal, format_imdb_id (.str (format_imdb_id v)) = format_imdb_id v := by
  refine ⟨by decide, by decide, ?_⟩
  intro v
  by_cases hf : pyFalsyImdb v = true
  · have h0 : format_imdb_id v = [] := by
      unfold format_imdb_id
      rw [if_pos hf]
    rw [h0]
    decide
  · have hf' : pyFalsyImdb v = false := Bool.eq_false_iff.mpr hf
    unfold format_imdb_id
    rw [hf']
    simp only [Bool.false_eq_true, if_false]
    by_cases hs : startsWith (ps "tt") (pyStrOfImdb v) = true
    · rw [if_pos hs]
      obtain ⟨rest, hr⟩ := startsWith_tt_shape hs
      rw [hr]
      have hfalsy : pyFalsyImdb (.str ('t' :: 't' :: rest)) = false := rfl
      rw [hfalsy]
      simp only [Bool.false_eq_true, if_false]
      rw [if_pos (by simp [ps, startsWith])]
      rfl
    · rw [if_neg hs]
      have hfalsy : pyFalsyImdb (.str ('t' :: 't' :: pyStrOfImdb v)) = false := rfl
      rw [hfalsy]
      simp only [Bool.false_eq_true, if_false]
      rw [if_pos (by simp [ps, startsWith])]
      rfl

/-- When the cleaned keyword is non-empty and at most half ASCII, or more
than 30% CJK, `_is_english_keyword` rejects it. -/
theorem is_english_keyword_false (keyword : PyStr)
    (hclean : clean_keyword keyword ≠ [])
    (hratio :
      2 * ((clean_keyword keyword).countP isAsciiCodePoint) ≤
        (clean_keyword keyword).length ∨
      3 * (clean_keyword keyword).length <
        10 * ((clean_keyword keyword).countP isCJKChar)) :
    is_english_keyword keyword = false := by
  have hkw : ¬ (keyword.isEmpty = true) := by
    intro h
    rw [List.isEmpty_iff] at h
    exact hclean (by simp [clean_keyword, h])
  have hpos : 0 < (clean_keyword keyword).length := List.length_pos.mpr hclean
  unfold is_english_keyword
  rw [if_neg hkw]
  simp only []
  rw [if_neg (by simpa [List.isEmpty_iff] using hclean)]
  rcases hratio with hl | hr
  · by_cases hc : 0 < (clean_keyword keyword).countP isCJKChar ∧
        3 * (clean_keyword keyword).length <
          10 * ((clean_keyword keyword).countP isCJKChar)
    · rw [if_pos hc]
    · rw [if_neg hc]
      simp only [decide_eq_false_iff_not, not_lt]
      exact hl
  · rw [if_pos ⟨by omega, hr⟩]

/-- C10: a search call whose keyword is not an IMDb id and whose cleaned
form is at most half ASCII or more than 30% CJK returns `[]` from
`search_torrents` before any upstream HTTP request, on any site belonging
to either indexer plugin. -/
theorem non_english_keyword_skips_search (keyword : PyStr) (site : SiteDict)
    (himdb : is_imdb_id keyword = false)
    (hclean : clean_keyword keyword ≠ [])
    (hratio :
      2 * ((clean_keyword keyword).countP isAsciiCodePoint) ≤
        (clean_keyword keyword).length ∨
      3 * (clean_keyword keyword).length <
        10 * ((clean_keyword keyword).countP isCJKChar)) :
    (split_site_head (site.name.getD []) = jackett_plugin_name →
      jackett_search_gate site keyword = .earlyEmpty) ∧
    (split_site_head (site.name.getD []) = prowlarr_plugin_name →
      prowlarr_search_gate site keyword = .earlyEmpty) := by
  have heng := is_english_keyword_false keyword hclean hratio
  have hkw : keyword.isEmpty = false := by
    cases keyword with
    | nil => exact absurd rfl hclean
    | cons a t => rfl
  constructor
  · intro _
    simp [jackett_search_gate, hkw, himdb, heng]
  · intro _
    simp [prowlarr_search_gate, hkw, himdb, heng]

/-- C10 (witness): the CJK keyword `"三体"` is skipped by both plugins'
gates on their own sites. -/
theorem non_english_keyword_skips_search_witness :
    jackett_search_gate
      ⟨some (ps "Jackett索引器-X"), some (ps "jackett_indexer.1")⟩
      (ps "三体") = .earlyEmpty ∧
    prowlarr_search_gate
      ⟨some (ps "Prowlarr索引器-Y"), some (ps "prowlarr_indexer.2")⟩
      (ps "三体") = .earlyEmpty :=
  ⟨(non_english_keyword_skips_search (ps "三体")
      ⟨some (ps "Jackett索引器-X"), some (ps "jackett_indexer.1")⟩
      (by decide) (by decide) (Or.inl (by decide))).1 (by decide),
   (non_english_keyword_skips_search (ps "三体")
      ⟨some (ps "Prowlarr索引器-Y"), some (ps "prowlarr_indexer.2")⟩
      (by decide) (by decide) (Or.inl (by decide))).2 (by decide)⟩
